import Mathlib

/-!
# Shallow embedding of the checkpoint engine (`ShadowCheckpointService.ts`)

This file embeds the checkpoint subsystem of the repository — the
`ShadowCheckpointService` class in
`src/services/checkpoints/ShadowCheckpointService.ts` — as pure Lean
functions, and proves the spec's claims about it.

Modelling choices:

* The mutable instance fields (`_checkpoints`, `_baseHash`, `git`) become a
  `ServiceState` record; each method becomes a function from the state (plus
  the outcomes of its external calls) to a result record carrying the
  returned value or thrown error (`Except`), the updated state, the events
  emitted via `this.emit`, and the filesystem/git side effects performed.
* External asynchronous calls (git commit/clean/reset, the ripgrep scan,
  blob and file reads) are nondeterministic from the program's point of
  view, so their outcomes are passed in as `Except`-valued parameters; the
  embedded function reproduces exactly how the TypeScript reacts to each
  outcome (try/catch structure, `.catch` fallbacks, swallowed errors).
* Node `path` functions are modelled for the POSIX-style inputs this code
  feeds them (relative segments without trailing slashes, `\` normalised to
  `/` beforehand by the code itself where relevant).
-/

namespace Checkpoints

/-- Equality on `Except` is decidable when it is on both components. -/
instance exceptDecEq {ε α : Type} [DecidableEq ε] [DecidableEq α] :
    DecidableEq (Except ε α) := fun a b =>
  match a, b with
  | .ok x, .ok y =>
    if h : x = y then .isTrue (by simp [h]) else .isFalse (by simp [h])
  | .error x, .error y =>
    if h : x = y then .isTrue (by simp [h]) else .isFalse (by simp [h])
  | .ok _, .error _ => .isFalse (by simp)
  | .error _, .ok _ => .isFalse (by simp)

/-- `path.join(a, b)` for a non-empty base and a relative second segment
(the only shape this code uses). -/
def pathJoin (a b : String) : String := a ++ "/" ++ b

/-- Character-list prefix test (structural, so proofs can evaluate it). -/
def listPrefix : List Char → List Char → Bool
  | [], _ => true
  | _ :: _, [] => false
  | a :: as, b :: bs => a == b && listPrefix as bs

/-- Character-list substring test. -/
def listInfix (pat : List Char) : List Char → Bool
  | [] => listPrefix pat []
  | c :: rest => listPrefix pat (c :: rest) || listInfix pat rest

/-- JavaScript `s.startsWith(pre)`. -/
def strStartsWith (s pre : String) : Bool := listPrefix pre.data s.data

/-- JavaScript `s.includes(pat)`. -/
def strContains (s pat : String) : Bool := listInfix pat.data s.data

/-- JavaScript `s.replace(/\\/g, "/")`: normalise backslashes to slashes. -/
def normalizeSlashes (s : String) : String :=
  ⟨s.data.map (fun c => if c == '\\' then '/' else c)⟩

/-- Split a character list at a separator character. -/
def splitChar (sep : Char) : List Char → List (List Char)
  | [] => [[]]
  | c :: rest =>
    if c == sep then [] :: splitChar sep rest
    else
      match splitChar sep rest with
      | [] => [[c]]
      | h :: t => (c :: h) :: t

/-- `path.dirname(p)` for a relative POSIX path without trailing slash:
everything before the last `/`, or `"."` when there is none. -/
def pathDirname (p : String) : String :=
  let parts := splitChar '/' p.data
  if parts.length ≤ 1 then "." else ⟨List.intercalate ['/'] parts.dropLast⟩

/-- `path.relative(base, target)` restricted to the shapes this code
produces: the target is `base ++ "/" ++ rel` (then it returns `rel`),
the target equals the base (then `""`), or it is unrelated. -/
def pathRelative (base target : String) : String :=
  if strStartsWith target (base ++ "/") then
    ⟨target.data.drop (base.data.length + 1)⟩
  else if target == base then "" else target

/-- JavaScript `Array.prototype.indexOf`, with `-1` rendered as `none`. -/
def indexOfOpt (l : List String) (x : String) : Option Nat :=
  match l with
  | [] => none
  | a :: rest => if a == x then some 0 else (indexOfOpt rest x).map (· + 1)

/-- A match returned by the path-enumeration capability (`executeRipgrep`):
a type tag (`"file"`, `"directory"`, …) and a path relative to the
workspace root. -/
structure RgEntry where
  type : String
  path : String
deriving Repr, DecidableEq

/-- The events the service emits (`CheckpointEventMap`), with the error
event carrying the error message. -/
inductive Event where
  | initializeEvent (workspaceDir baseHash : String) (created : Bool) (duration : Nat)
  | checkpoint (fromHash toHash : String) (duration : Nat) (suppressMessage : Bool)
  | restore (commitHash : String) (duration : Nat)
  | error (message : String)
deriving Repr, DecidableEq

/-- Side effects a method performs against the outside world, used to state
"no filesystem mutation / no repository creation happened". -/
inductive Effect where
  | uiWarning (message : String)
  | fsMkdir (dir : String)
  | fsWriteFile (file : String)
  | gitOp (name : String)
deriving Repr, DecidableEq

/-- Whether an effect mutates the filesystem (git operations do: they write
under the shadow repository's metadata directory). -/
def Effect.isFsMutation : Effect → Bool
  | .uiWarning _ => false
  | .fsMkdir _ => true
  | .fsWriteFile _ => true
  | .gitOp _ => true

/-- The mutable state of one `ShadowCheckpointService` instance:
`taskId`, `checkpointsDir`, `workspaceDir` are the readonly fields;
`checkpoints` is `_checkpoints`, `baseHash` is `_baseHash`, and
`gitInitialized` records whether `this.git` is set. -/
structure ServiceState where
  taskId : String
  checkpointsDir : String
  workspaceDir : String
  checkpoints : List String
  baseHash : Option String
  gitInitialized : Bool
deriving Repr, DecidableEq

/-- The protected system locations the constructor refuses
(home directory, Desktop, Documents, Downloads). -/
def protectedPaths (homedir : String) : List String :=
  [homedir, pathJoin homedir "Desktop", pathJoin homedir "Documents",
   pathJoin homedir "Downloads"]

/-- The constructor: throws for protected workspace directories (after
showing a warning dialog, which is UI, not a filesystem mutation), else
returns a fresh uninitialized state. It performs no filesystem I/O. -/
def mkService (homedir taskId checkpointsDir workspaceDir : String) :
    Except String ServiceState × List Effect :=
  if (protectedPaths homedir).contains workspaceDir then
    (.error ("Cannot use checkpoints in " ++ workspaceDir),
     [.uiWarning workspaceDir])
  else
    (.ok { taskId := taskId, checkpointsDir := checkpointsDir,
           workspaceDir := workspaceDir, checkpoints := [],
           baseHash := none, gitInitialized := false },
     [])

/-- The filter predicate of `getNestedGitRepository`: keep `file` entries
whose `\`-normalised path contains `.git/HEAD` but is not the workspace
root's own `.git/HEAD`. -/
def isNestedGitHead (e : RgEntry) : Bool :=
  if e.type != "file" then false
  else
    let normalizedPath := normalizeSlashes e.path
    strContains normalizedPath ".git/HEAD" &&
      !(strStartsWith normalizedPath ".git/") &&
      normalizedPath != ".git/HEAD"

/-- `getNestedGitRepository`: runs the ripgrep scan (its outcome is the
`ripgrep` parameter), filters for nested `.git/HEAD` markers, and returns
the first match's repository directory joined onto the workspace path.
If the scan itself throws, the error is swallowed and the result is `none`
("assume there are no nested repos to avoid blocking the feature"). -/
def getNestedGitRepository (workspaceDir : String)
    (ripgrep : Except String (List RgEntry)) : Option String :=
  match ripgrep with
  | .error _ => none
  | .ok gitPaths =>
    match gitPaths.filter isNestedGitHead with
    | [] => none
    | e :: _ =>
      let gitDir := pathDirname e.path
      let repoDir := pathDirname gitDir
      some (pathJoin workspaceDir repoDir)

/-- Environment for `initShadowGit`: whether the shadow `.git` directory
already exists, the `core.worktree` config value found on reopen (`none`
when missing or when the lookup threw — that error is swallowed), the
`HEAD` hash read on reopen, and the hash of the initial allow-empty commit
made on first creation. -/
structure GitEnv where
  dotGitExists : Bool
  worktreeConfig : Option String
  headHash : String
  newCommitHash : String
deriving Repr, DecidableEq

/-- Result of `initShadowGit`: the returned `{ created, duration }` or the
thrown error, the updated state, the events emitted, and the side effects
performed. -/
structure InitOutcome where
  result : Except String (Bool × Nat)
  state : ServiceState
  events : List Event
  effects : List Effect
deriving Repr, DecidableEq

/-- `initShadowGit`: already-initialized guard, nested-repository check,
then either the reopen path (worktree validation, exclude rewrite, read
`HEAD` as base hash) or the first-creation path (init, config, excludes,
stage, allow-empty initial commit as base hash). Throws propagate —
`initShadowGit` has no catch, so no `error` event is emitted. -/
def initShadowGit (s : ServiceState) (ripgrep : Except String (List RgEntry))
    (env : GitEnv) (duration : Nat) : InitOutcome :=
  if s.gitInitialized then
    { result := .error "Shadow git repo already initialized",
      state := s, events := [], effects := [] }
  else
    match getNestedGitRepository s.workspaceDir ripgrep with
    | some nestedGitPath =>
      let relativePath := pathRelative s.workspaceDir nestedGitPath
      { result := .error
          ("Checkpoints are disabled because a nested git repository was detected at: "
            ++ relativePath
            ++ ". Please remove or relocate nested git repositories to use the checkpoints feature."),
        state := s,
        events := [],
        effects := [.uiWarning relativePath] }
    | none =>
      if env.dotGitExists then
        if env.worktreeConfig != some s.workspaceDir then
          { result := .error
              ("Checkpoints can only be used in the original workspace: "
                ++ (env.worktreeConfig.getD "undefined") ++ " !== " ++ s.workspaceDir),
            state := s,
            events := [],
            effects := [.fsMkdir s.checkpointsDir] }
        else
          { result := .ok (false, duration),
            state := { s with baseHash := some env.headHash, gitInitialized := true },
            events := [.initializeEvent s.workspaceDir env.headHash false duration],
            effects := [.fsMkdir s.checkpointsDir,
                        .fsWriteFile "info/exclude"] }
      else
        { result := .ok (true, duration),
          state := { s with baseHash := some env.newCommitHash, gitInitialized := true },
          events := [.initializeEvent s.workspaceDir env.newCommitHash true duration],
          effects := [.fsMkdir s.checkpointsDir, .gitOp "init",
                      .fsWriteFile "info/exclude", .gitOp "add",
                      .gitOp "commit"] }

/-- Options of `saveCheckpoint` (both default to false / unset). -/
structure SaveOptions where
  allowEmpty : Bool := false
  suppressMessage : Bool := false
deriving Repr, DecidableEq

/-- Result of `saveCheckpoint`: `.ok (some h)` models returning the commit
result for new commit `h`, `.ok none` models returning `undefined`,
`.error` models a rethrown exception. -/
structure SaveOutcome where
  result : Except String (Option String)
  state : ServiceState
  events : List Event
deriving Repr, DecidableEq

/-- `saveCheckpoint(message, options)`. `commitOutcome` is what
`git.commit` produced: `.ok h` with the new hash, `.ok ""` when git found
nothing to commit (the `CommitResult.commit` field is the empty string),
or `.error` when the git operation threw. `stageAll` swallows its own
errors, so it does not appear. The surrounding try/catch turns any throw
into one `error` event plus a rethrow. Note the unconditional
`this._checkpoints.push(toHash)`. -/
def saveCheckpoint (s : ServiceState) (opts : SaveOptions)
    (commitOutcome : Except String String) (duration : Nat) : SaveOutcome :=
  if !s.gitInitialized then
    { result := .error "Shadow git repo not initialized",
      state := s,
      events := [.error "Shadow git repo not initialized"] }
  else
    match commitOutcome with
    | .error e =>
      { result := .error e, state := s, events := [.error e] }
    | .ok commitField =>
      let fromHash := (s.checkpoints.getLast?).getD (s.baseHash.getD "")
      let toHash := if commitField == "" then fromHash else commitField
      let s' := { s with checkpoints := s.checkpoints ++ [toHash] }
      if commitField == "" then
        { result := .ok none, state := s', events := [] }
      else
        { result := .ok (some commitField), state := s',
          events := [.checkpoint fromHash toHash duration opts.suppressMessage] }

/-- The truncation step of `restoreCheckpoint` (lines 313–318):
`indexOf` then `slice(0, index + 1)` when the hash was found. -/
def truncateCheckpoints (checkpoints : List String) (commitHash : String) :
    List String :=
  match indexOfOpt checkpoints commitHash with
  | some i => checkpoints.take (i + 1)
  | none => checkpoints

/-- Result of `restoreCheckpoint`. -/
structure RestoreOutcome where
  result : Except String Unit
  state : ServiceState
  events : List Event
deriving Repr, DecidableEq

/-- `restoreCheckpoint(commitHash)`: clean, hard-reset, truncate the
checkpoint list at the restored hash, emit `restore`; any throw becomes
one `error` event plus a rethrow, with the truncation never reached. -/
def restoreCheckpoint (s : ServiceState) (commitHash : String)
    (cleanOutcome resetOutcome : Except String Unit) (duration : Nat) :
    RestoreOutcome :=
  if !s.gitInitialized then
    { result := .error "Shadow git repo not initialized",
      state := s,
      events := [.error "Shadow git repo not initialized"] }
  else
    match cleanOutcome with
    | .error e => { result := .error e, state := s, events := [.error e] }
    | .ok _ =>
      match resetOutcome with
      | .error e => { result := .error e, state := s, events := [.error e] }
      | .ok _ =>
        { result := .ok (),
          state := { s with checkpoints := truncateCheckpoints s.checkpoints commitHash },
          events := [.restore commitHash duration] }

/-- One changed file as `getDiff` processes it: the relative path from the
diff summary, and the outcomes of the two content reads — `before` from
`git.show([from:rel])`, `after` from `git.show([to:rel])` or
`fs.readFile` depending on whether `to` was given. -/
structure DiffInput where
  file : String
  beforeOutcome : Except String String
  afterOutcome : Except String String
deriving Repr, DecidableEq

/-- One record of the returned `CheckpointDiff[]`. -/
structure CheckpointDiffEntry where
  relPath : String
  absPath : String
  before : String
  after : String
deriving Repr, DecidableEq

/-- JavaScript `a || b` on strings (empty string is falsy). -/
def jsOr (a b : String) : String := if a == "" then b else a

/-- The `cwdPath` resolution in `getDiff`:
`(await getShadowGitConfigWorktree()) || this.workspaceDir || ""`. -/
def resolveCwdPath (worktreeConfig : Option String) (workspaceDir : String) :
    String :=
  jsOr (worktreeConfig.getD "") (jsOr workspaceDir "")

/-- Per-file body of the `getDiff` loop: each failed read degrades to the
empty string via `.catch(() => "")`, and the record is pushed regardless. -/
def diffFile (cwdPath : String) (f : DiffInput) : CheckpointDiffEntry :=
  { relPath := f.file,
    absPath := pathJoin cwdPath f.file,
    before := match f.beforeOutcome with | .ok c => c | .error _ => "",
    after := match f.afterOutcome with | .ok c => c | .error _ => "" }

/-- `getDiff({ from, to })`: initialization guard, then one record per
changed file of the diff summary. `files` carries the summary's file list
together with the outcome of each per-file read. -/
def getDiff (s : ServiceState) (worktreeConfig : Option String)
    (files : List DiffInput) : Except String (List CheckpointDiffEntry) :=
  if !s.gitInitialized then .error "Shadow git repo not initialized"
  else .ok (files.map (diffFile (resolveCwdPath worktreeConfig s.workspaceDir)))

/-! ## Helper lemmas about the truncation step -/

/-- `indexOfOpt` finds nothing exactly when the element is absent. -/
theorem indexOfOpt_eq_none_of_not_mem {l : List String} {x : String}
    (h : x ∉ l) : indexOfOpt l x = none := by
  induction l with
  | nil => rfl
  | cons a rest ih =>
    simp only [List.mem_cons, not_or] at h
    have hax : (a == x) = false := beq_eq_false_iff_ne.mpr (fun e => h.1 e.symm)
    simp [indexOfOpt, hax, ih h.2]

/-- Unfolding of the truncation on a cons cell. -/
theorem truncateCheckpoints_cons (a : String) (rest : List String) (x : String) :
    truncateCheckpoints (a :: rest) x
      = if a == x then [a] else a :: truncateCheckpoints rest x := by
  by_cases hax : a == x
  · simp [truncateCheckpoints, indexOfOpt, hax]
  · simp only [Bool.not_eq_true] at hax
    cases hrest : indexOfOpt rest x with
    | none => simp [truncateCheckpoints, indexOfOpt, hax, hrest]
    | some i => simp [truncateCheckpoints, indexOfOpt, hax, hrest, List.take_succ_cons]

/-- Truncating at an absent hash is the identity. -/
theorem truncateCheckpoints_eq_of_not_mem {l : List String} {x : String}
    (h : x ∉ l) : truncateCheckpoints l x = l := by
  simp [truncateCheckpoints, indexOfOpt_eq_none_of_not_mem h]

/-- The truncated list is a prefix of the original. -/
theorem truncateCheckpoints_prefix (l : List String) (x : String) :
    truncateCheckpoints l x <+: l := by
  unfold truncateCheckpoints
  cases indexOfOpt l x with
  | none => exact List.prefix_refl l
  | some i => exact List.take_prefix (i + 1) l

/-- Truncating at a present hash ends the list at that hash. -/
theorem truncateCheckpoints_getLast {l : List String} {x : String}
    (h : x ∈ l) : (truncateCheckpoints l x).getLast? = some x := by
  induction l with
  | nil => simp at h
  | cons a rest ih =>
    rw [truncateCheckpoints_cons]
    by_cases hax : (a == x) = true
    · simp [hax, eq_of_beq hax]
    · have hne : a ≠ x := fun e => hax (by simp [e])
      have hm : x ∈ rest := by
        rcases List.mem_cons.mp h with h1 | h2
        · exact absurd h1.symm hne
        · exact h2
      have htail := ih hm
      have hnonempty : truncateCheckpoints rest x ≠ [] := by
        intro he
        rw [he] at htail
        simp at htail
      simp only [Bool.not_eq_true] at hax
      rw [if_neg (by simp [hax])]
      rw [List.getLast?_cons, htail]
      rfl

/-! ## Claim theorems -/

/-- C1 (counterexample): on an initialized repository whose checkpoint
sequence is `["a"]`, `saveCheckpoint` with `allowEmpty` unset and no
working-tree changes (git commit reports no commit, i.e. an empty `commit`
field) returns `undefined` and emits no `checkpoint` event — but the
checkpoint sequence does NOT keep its length: the unconditional
`this._checkpoints.push(toHash)` appends a duplicate of the last hash, so
the sequence becomes `["a", "a"]` of length 2, refuting the claim's
"leaves the checkpoint sequence the same length" at this concrete input. -/
theorem saveCheckpoint_empty_grows_counterexample :
    (saveCheckpoint
      { taskId := "t", checkpointsDir := "/s", workspaceDir := "/w",
        checkpoints := ["a"], baseHash := some "b", gitInitialized := true }
      {} (.ok "") 0).result = .ok none ∧
    (saveCheckpoint
      { taskId := "t", checkpointsDir := "/s", workspaceDir := "/w",
        checkpoints := ["a"], baseHash := some "b", gitInitialized := true }
      {} (.ok "") 0).events = [] ∧
    (saveCheckpoint
      { taskId := "t", checkpointsDir := "/s", workspaceDir := "/w",
        checkpoints := ["a"], baseHash := some "b", gitInitialized := true }
      {} (.ok "") 0).state.checkpoints = ["a", "a"] :=
  ⟨rfl, rfl, rfl⟩

/-- C1 (amended): for every initialized shadow repository, when git finds
no staged changes (commit result carries an empty `commit` field, the
outcome of `allowEmpty` unset with no working-tree changes),
`saveCheckpoint` returns an empty result (`undefined`) and emits no
`checkpoint` event, but appends one duplicate of the previous last
checkpoint hash (or of the base hash when the sequence was empty), so the
checkpoint sequence grows by exactly one. -/
theorem saveCheckpoint_empty_commit_spec (s : ServiceState) (opts : SaveOptions)
    (duration : Nat) (b : String) (hinit : s.gitInitialized = true)
    (hbase : s.baseHash = some b) :
    (saveCheckpoint s opts (.ok "") duration).result = .ok none ∧
    (saveCheckpoint s opts (.ok "") duration).events = [] ∧
    (saveCheckpoint s opts (.ok "") duration).state.checkpoints
      = s.checkpoints ++ [(s.checkpoints.getLast?).getD b] := by
  simp [saveCheckpoint, hinit, hbase]

/-- Witness for `saveCheckpoint_empty_commit_spec` at a concrete state. -/
theorem saveCheckpoint_empty_commit_spec_witness :
    (saveCheckpoint
      { taskId := "t", checkpointsDir := "/s", workspaceDir := "/w",
        checkpoints := [], baseHash := some "b", gitInitialized := true }
      {} (.ok "") 7).result = .ok none ∧
    (saveCheckpoint
      { taskId := "t", checkpointsDir := "/s", workspaceDir := "/w",
        checkpoints := [], baseHash := some "b", gitInitialized := true }
      {} (.ok "") 7).events = [] ∧
    (saveCheckpoint
      { taskId := "t", checkpointsDir := "/s", workspaceDir := "/w",
        checkpoints := [], baseHash := some "b", gitInitialized := true }
      {} (.ok "") 7).state.checkpoints
      = ([] : List String) ++ [(([] : List String).getLast?).getD "b"] :=
  saveCheckpoint_empty_commit_spec
    { taskId := "t", checkpointsDir := "/s", workspaceDir := "/w",
      checkpoints := [], baseHash := some "b", gitInitialized := true }
    {} 7 "b" rfl rfl

/-- C2: for every initialized shadow repository whose checkpoint sequence
contains `commitHash`, `restoreCheckpoint(commitHash)` (with the git clean
and reset succeeding) succeeds and truncates the sequence to a prefix of
the old one whose last element is `commitHash`, discarding every later
entry. -/
theorem restoreCheckpoint_truncates_to_hash (s : ServiceState)
    (commitHash : String) (duration : Nat) (hinit : s.gitInitialized = true)
    (hmem : commitHash ∈ s.checkpoints) :
    (restoreCheckpoint s commitHash (.ok ()) (.ok ()) duration).result = .ok () ∧
    (restoreCheckpoint s commitHash (.ok ()) (.ok ()) duration).state.checkpoints
      <+: s.checkpoints ∧
    (restoreCheckpoint s commitHash (.ok ()) (.ok ()) duration).state.checkpoints.getLast?
      = some commitHash := by
  refine ⟨by simp [restoreCheckpoint, hinit], ?_, ?_⟩
  · simp only [restoreCheckpoint, hinit, Bool.not_true, Bool.false_eq_true,
      if_false]
    exact truncateCheckpoints_prefix s.checkpoints commitHash
  · simp only [restoreCheckpoint, hinit, Bool.not_true, Bool.false_eq_true,
      if_false]
    exact truncateCheckpoints_getLast hmem

/-- Witness for `restoreCheckpoint_truncates_to_hash`: restoring the second
of three checkpoints. -/
theorem restoreCheckpoint_truncates_to_hash_witness :
    (restoreCheckpoint
      { taskId := "t", checkpointsDir := "/s", workspaceDir := "/w",
        checkpoints := ["a", "b", "c"], baseHash := some "x", gitInitialized := true }
      "b" (.ok ()) (.ok ()) 5).result = .ok () ∧
    (restoreCheckpoint
      { taskId := "t", checkpointsDir := "/s", workspaceDir := "/w",
        checkpoints := ["a", "b", "c"], baseHash := some "x", gitInitialized := true }
      "b" (.ok ()) (.ok ()) 5).state.checkpoints <+: ["a", "b", "c"] ∧
    (restoreCheckpoint
      { taskId := "t", checkpointsDir := "/s", workspaceDir := "/w",
        checkpoints := ["a", "b", "c"], baseHash := some "x", gitInitialized := true }
      "b" (.ok ()) (.ok ()) 5).state.checkpoints.getLast? = some "b" :=
  restoreCheckpoint_truncates_to_hash
    { taskId := "t", checkpointsDir := "/s", workspaceDir := "/w",
      checkpoints := ["a", "b", "c"], baseHash := some "x", gitInitialized := true }
    "b" 5 rfl (by decide)

/-- C3: for every shadow repository, restoring a hash that does not occur
in the checkpoint sequence (in particular the base hash) leaves the whole
state — in particular the checkpoint sequence — unchanged, whatever the
outcomes of the git clean and reset. -/
theorem restoreCheckpoint_absent_hash_frame (s : ServiceState)
    (commitHash : String) (cleanOutcome resetOutcome : Except String Unit)
    (duration : Nat) (hmem : commitHash ∉ s.checkpoints) :
    (restoreCheckpoint s commitHash cleanOutcome resetOutcome duration).state
      = s := by
  unfold restoreCheckpoint
  by_cases hinit : s.gitInitialized
  · cases cleanOutcome with
    | error e => simp [hinit]
    | ok _ =>
      cases resetOutcome with
      | error e => simp [hinit]
      | ok _ =>
        simp only [hinit, Bool.not_true, Bool.false_eq_true, if_false]
        rw [truncateCheckpoints_eq_of_not_mem hmem, ← hinit]
  · simp [hinit]

/-- Witness for `restoreCheckpoint_absent_hash_frame`: restoring the base
hash, which is not in the checkpoint list. -/
theorem restoreCheckpoint_absent_hash_frame_witness :
    (restoreCheckpoint
      { taskId := "t", checkpointsDir := "/s", workspaceDir := "/w",
        checkpoints := ["a", "b"], baseHash := some "base", gitInitialized := true }
      "base" (.ok ()) (.ok ()) 5).state
      = { taskId := "t", checkpointsDir := "/s", workspaceDir := "/w",
          checkpoints := ["a", "b"], baseHash := some "base", gitInitialized := true } :=
  restoreCheckpoint_absent_hash_frame
    { taskId := "t", checkpointsDir := "/s", workspaceDir := "/w",
      checkpoints := ["a", "b"], baseHash := some "base", gitInitialized := true }
    "base" (.ok ()) (.ok ()) 5 (by decide)

/-- C4: for every initialized shadow repository, when git reports a real
commit (non-empty hash), `saveCheckpoint` returns that commit, appends
exactly that one hash to the checkpoint sequence, and emits exactly one
`checkpoint` event whose `toHash` is the appended hash and whose
`fromHash` is the previous last checkpoint, or the base hash when the
sequence was empty. -/
theorem saveCheckpoint_real_commit_spec (s : ServiceState) (opts : SaveOptions)
    (hash b : String) (duration : Nat) (hinit : s.gitInitialized = true)
    (hbase : s.baseHash = some b) (hne : hash ≠ "") :
    (saveCheckpoint s opts (.ok hash) duration).result = .ok (some hash) ∧
    (saveCheckpoint s opts (.ok hash) duration).state.checkpoints
      = s.checkpoints ++ [hash] ∧
    (saveCheckpoint s opts (.ok hash) duration).events
      = [.checkpoint ((s.checkpoints.getLast?).getD b) hash duration
          opts.suppressMessage] := by
  have hbeq : (hash == "") = false := beq_eq_false_iff_ne.mpr hne
  simp [saveCheckpoint, hinit, hbase, hbeq]

/-- Witness for `saveCheckpoint_real_commit_spec`: first checkpoint after
the base commit. -/
theorem saveCheckpoint_real_commit_spec_witness :
    (saveCheckpoint
      { taskId := "t", checkpointsDir := "/s", workspaceDir := "/w",
        checkpoints := ["c1"], baseHash := some "b", gitInitialized := true }
      { allowEmpty := false, suppressMessage := false } (.ok "c2") 9).result
      = .ok (some "c2") ∧
    (saveCheckpoint
      { taskId := "t", checkpointsDir := "/s", workspaceDir := "/w",
        checkpoints := ["c1"], baseHash := some "b", gitInitialized := true }
      { allowEmpty := false, suppressMessage := false } (.ok "c2") 9).state.checkpoints
      = ["c1"] ++ ["c2"] ∧
    (saveCheckpoint
      { taskId := "t", checkpointsDir := "/s", workspaceDir := "/w",
        checkpoints := ["c1"], baseHash := some "b", gitInitialized := true }
      { allowEmpty := false, suppressMessage := false } (.ok "c2") 9).events
      = [.checkpoint ((["c1"].getLast?).getD "b") "c2" 9 false] :=
  saveCheckpoint_real_commit_spec
    { taskId := "t", checkpointsDir := "/s", workspaceDir := "/w",
      checkpoints := ["c1"], baseHash := some "b", gitInitialized := true }
    { allowEmpty := false, suppressMessage := false } "c2" "b" 9 rfl rfl
    (by decide)

/-- C6: for every workspace directory equal to one of the protected system
locations (home directory, Desktop, Documents, Downloads), the constructor
throws, and its effect trace contains no filesystem mutation — the throw
happens before any filesystem work (the constructor performs none at
all). -/
theorem mkService_protected_path_throws (homedir taskId cpDir wsDir : String)
    (hp : wsDir ∈ protectedPaths homedir) :
    (mkService homedir taskId cpDir wsDir).1
      = .error ("Cannot use checkpoints in " ++ wsDir) ∧
    ((mkService homedir taskId cpDir wsDir).2.filter Effect.isFsMutation)
      = [] := by
  simp [mkService, hp, Effect.isFsMutation]

/-- Witness for `mkService_protected_path_throws`: the Desktop folder. -/
theorem mkService_protected_path_throws_witness :
    (mkService "/home/u" "task1" "/storage" "/home/u/Desktop").1
      = .error ("Cannot use checkpoints in " ++ "/home/u/Desktop") ∧
    ((mkService "/home/u" "task1" "/storage" "/home/u/Desktop").2.filter
      Effect.isFsMutation) = [] :=
  mkService_protected_path_throws "/home/u" "task1" "/storage" "/home/u/Desktop"
    (by decide)

/-- C8: for every initialized shadow repository, when the git commit inside
`saveCheckpoint` throws, the call emits exactly one `error` event carrying
that error, rethrows the same error to the caller, and leaves the whole
state — in particular the checkpoint sequence — unchanged. -/
theorem saveCheckpoint_error_spec (s : ServiceState) (opts : SaveOptions)
    (e : String) (duration : Nat) (hinit : s.gitInitialized = true) :
    (saveCheckpoint s opts (.error e) duration).result = .error e ∧
    (saveCheckpoint s opts (.error e) duration).events = [.error e] ∧
    (saveCheckpoint s opts (.error e) duration).state = s := by
  simp [saveCheckpoint, hinit]

/-- Witness for `saveCheckpoint_error_spec` at a concrete state. -/
theorem saveCheckpoint_error_spec_witness :
    (saveCheckpoint
      { taskId := "t", checkpointsDir := "/s", workspaceDir := "/w",
        checkpoints := ["c1"], baseHash := some "b", gitInitialized := true }
      {} (.error "boom") 4).result = .error "boom" ∧
    (saveCheckpoint
      { taskId := "t", checkpointsDir := "/s", workspaceDir := "/w",
        checkpoints := ["c1"], baseHash := some "b", gitInitialized := true }
      {} (.error "boom") 4).events = [.error "boom"] ∧
    (saveCheckpoint
      { taskId := "t", checkpointsDir := "/s", workspaceDir := "/w",
        checkpoints := ["c1"], baseHash := some "b", gitInitialized := true }
      {} (.error "boom") 4).state
      = { taskId := "t", checkpointsDir := "/s", workspaceDir := "/w",
          checkpoints := ["c1"], baseHash := some "b", gitInitialized := true } :=
  saveCheckpoint_error_spec
    { taskId := "t", checkpointsDir := "/s", workspaceDir := "/w",
      checkpoints := ["c1"], baseHash := some "b", gitInitialized := true }
    {} "boom" 4 rfl

/-- C5: for every uninitialized instance whose nested-repository scan
reports a nested version-control metadata directory, `initShadowGit`
throws the error naming the offending relative path, leaves the state
(in particular `gitInitialized` and `baseHash`) unchanged, and performs no
filesystem mutation — in particular no base commit. -/
theorem initShadowGit_nested_repo_blocks (s : ServiceState)
    (ripgrep : Except String (List RgEntry)) (env : GitEnv) (duration : Nat)
    (p : String) (hinit : s.gitInitialized = false)
    (hnested : getNestedGitRepository s.workspaceDir ripgrep = some p) :
    (initShadowGit s ripgrep env duration).result = .error
      ("Checkpoints are disabled because a nested git repository was detected at: "
        ++ pathRelative s.workspaceDir p
        ++ ". Please remove or relocate nested git repositories to use the checkpoints feature.") ∧
    (initShadowGit s ripgrep env duration).state = s ∧
    (initShadowGit s ripgrep env duration).state.gitInitialized = false ∧
    ((initShadowGit s ripgrep env duration).effects.filter Effect.isFsMutation)
      = [] := by
  simp [initShadowGit, hinit, hnested, Effect.isFsMutation]

/-- Witness for `initShadowGit_nested_repo_blocks`: the scan reports
`sub/.git/HEAD`, so initialization fails naming `sub`. -/
theorem initShadowGit_nested_repo_blocks_witness :
    (initShadowGit
      { taskId := "t", checkpointsDir := "/s", workspaceDir := "/w",
        checkpoints := [], baseHash := none, gitInitialized := false }
      (.ok [⟨"file", "sub/.git/HEAD"⟩]) ⟨false, none, "h", "n"⟩ 3).result
      = .error
        ("Checkpoints are disabled because a nested git repository was detected at: "
          ++ pathRelative "/w" "/w/sub"
          ++ ". Please remove or relocate nested git repositories to use the checkpoints feature.") ∧
    (initShadowGit
      { taskId := "t", checkpointsDir := "/s", workspaceDir := "/w",
        checkpoints := [], baseHash := none, gitInitialized := false }
      (.ok [⟨"file", "sub/.git/HEAD"⟩]) ⟨false, none, "h", "n"⟩ 3).state
      = { taskId := "t", checkpointsDir := "/s", workspaceDir := "/w",
          checkpoints := [], baseHash := none, gitInitialized := false } ∧
    (initShadowGit
      { taskId := "t", checkpointsDir := "/s", workspaceDir := "/w",
        checkpoints := [], baseHash := none, gitInitialized := false }
      (.ok [⟨"file", "sub/.git/HEAD"⟩]) ⟨false, none, "h", "n"⟩ 3).state.gitInitialized
      = false ∧
    ((initShadowGit
      { taskId := "t", checkpointsDir := "/s", workspaceDir := "/w",
        checkpoints := [], baseHash := none, gitInitialized := false }
      (.ok [⟨"file", "sub/.git/HEAD"⟩]) ⟨false, none, "h", "n"⟩ 3).effects.filter
        Effect.isFsMutation) = [] :=
  initShadowGit_nested_repo_blocks
    { taskId := "t", checkpointsDir := "/s", workspaceDir := "/w",
      checkpoints := [], baseHash := none, gitInitialized := false }
    (.ok [⟨"file", "sub/.git/HEAD"⟩]) ⟨false, none, "h", "n"⟩ 3 "/w/sub"
    rfl (by decide)

/-- A successful `initShadowGit` leaves the instance initialized. -/
theorem initShadowGit_ok_initialized (s : ServiceState)
    (ripgrep : Except String (List RgEntry)) (env : GitEnv) (duration : Nat)
    (v : Bool × Nat)
    (hok : (initShadowGit s ripgrep env duration).result = .ok v) :
    (initShadowGit s ripgrep env duration).state.gitInitialized = true := by
  unfold initShadowGit at hok ⊢
  by_cases hi : s.gitInitialized = true
  · rw [if_pos hi] at hok
    exact absurd hok (by simp)
  · rw [if_neg hi] at hok ⊢
    cases hn : getNestedGitRepository s.workspaceDir ripgrep with
    | some p =>
      rw [hn] at hok
      exact absurd hok (by simp)
    | none =>
      rw [hn] at hok
      by_cases hd : env.dotGitExists = true
      · rw [if_pos hd] at hok ⊢
        by_cases hw : (env.worktreeConfig != some s.workspaceDir) = true
        · rw [if_pos hw] at hok
          exact absurd hok (by simp)
        · rw [if_neg hw]
      · rw [if_neg hd]

/-- `initShadowGit` on an already-initialized state throws the guard
error without touching anything. -/
theorem initShadowGit_already_initialized (st : ServiceState)
    (ripgrep : Except String (List RgEntry)) (env : GitEnv) (duration : Nat)
    (h : st.gitInitialized = true) :
    (initShadowGit st ripgrep env duration).result
      = .error "Shadow git repo already initialized" := by
  simp [initShadowGit, h]

/-- C7: once `initShadowGit` has completed successfully on an instance, a
second call on the resulting instance always throws the
already-initialized error, whatever its scan and environment inputs. -/
theorem initShadowGit_double_init_throws (s : ServiceState)
    (rg rg2 : Except String (List RgEntry)) (env env2 : GitEnv) (d d2 : Nat)
    (v : Bool × Nat) (hok : (initShadowGit s rg env d).result = .ok v) :
    (initShadowGit (initShadowGit s rg env d).state rg2 env2 d2).result
      = .error "Shadow git repo already initialized" :=
  initShadowGit_already_initialized (initShadowGit s rg env d).state rg2 env2 d2
    (initShadowGit_ok_initialized s rg env d v hok)

/-- Witness for `initShadowGit_double_init_throws`: a fresh creation
followed by a second initialization attempt. -/
theorem initShadowGit_double_init_throws_witness :
    (initShadowGit
      (initShadowGit
        { taskId := "t", checkpointsDir := "/s", workspaceDir := "/w",
          checkpoints := [], baseHash := none, gitInitialized := false }
        (.ok []) ⟨false, none, "h", "n"⟩ 3).state
      (.ok []) ⟨true, some "/w", "h", "n"⟩ 4).result
      = .error "Shadow git repo already initialized" :=
  initShadowGit_double_init_throws
    { taskId := "t", checkpointsDir := "/s", workspaceDir := "/w",
      checkpoints := [], baseHash := none, gitInitialized := false }
    (.ok []) (.ok []) ⟨false, none, "h", "n"⟩ ⟨true, some "/w", "h", "n"⟩ 3 4
    (true, 3) rfl

/-- C9: for every initialized instance, `getDiff` succeeds with one entry
per changed file; each file's record is present with its relative path,
and a failed read of the before blob, the after blob, or the live file
degrades that side to the empty string — no per-file read failure aborts
the whole diff. -/
theorem getDiff_per_file_best_effort (s : ServiceState)
    (worktreeConfig : Option String) (files : List DiffInput)
    (hinit : s.gitInitialized = true) :
    ∃ entries, getDiff s worktreeConfig files = .ok entries ∧
      entries.length = files.length ∧
      ∀ f ∈ files, ∃ entry ∈ entries,
        entry.relPath = f.file ∧
        (∀ msg, f.beforeOutcome = .error msg → entry.before = "") ∧
        (∀ msg, f.afterOutcome = .error msg → entry.after = "") := by
  refine ⟨files.map (diffFile (resolveCwdPath worktreeConfig s.workspaceDir)),
    by simp [getDiff, hinit], by simp, ?_⟩
  intro f hf
  refine ⟨diffFile (resolveCwdPath worktreeConfig s.workspaceDir) f,
    List.mem_map_of_mem _ hf, rfl, ?_, ?_⟩
  · intro msg hmsg
    simp [diffFile, hmsg]
  · intro msg hmsg
    simp [diffFile, hmsg]

/-- Witness for `getDiff_per_file_best_effort`: two changed files, the
first with a failing before-read, the second with a failing after-read. -/
theorem getDiff_per_file_best_effort_witness :
    ∃ entries,
      getDiff
        { taskId := "t", checkpointsDir := "/s", workspaceDir := "/w",
          checkpoints := ["c1"], baseHash := some "b", gitInitialized := true }
        (some "/w")
        [⟨"x.txt", .error "gone", .ok "new"⟩, ⟨"y.txt", .ok "old", .error "gone"⟩]
        = .ok entries ∧
      entries.length
        = ([⟨"x.txt", .error "gone", .ok "new"⟩,
            ⟨"y.txt", .ok "old", .error "gone"⟩] : List DiffInput).length ∧
      ∀ f ∈ ([⟨"x.txt", .error "gone", .ok "new"⟩,
              ⟨"y.txt", .ok "old", .error "gone"⟩] : List DiffInput),
        ∃ entry ∈ entries,
          entry.relPath = f.file ∧
          (∀ msg, f.beforeOutcome = .error msg → entry.before = "") ∧
          (∀ msg, f.afterOutcome = .error msg → entry.after = "") :=
  getDiff_per_file_best_effort
    { taskId := "t", checkpointsDir := "/s", workspaceDir := "/w",
      checkpoints := ["c1"], baseHash := some "b", gitInitialized := true }
    (some "/w")
    [⟨"x.txt", .error "gone", .ok "new"⟩, ⟨"y.txt", .ok "old", .error "gone"⟩]
    rfl

/-- C10: when the nested-repository scan itself throws, the error is
swallowed: the detector reports no nested repository, and `initShadowGit`
on a fresh instance proceeds to create the repository and initialize
successfully — a scan failure never blocks the checkpoint feature. -/
theorem initShadowGit_scan_failure_proceeds (s : ServiceState) (err : String)
    (env : GitEnv) (duration : Nat) (hinit : s.gitInitialized = false)
    (hnew : env.dotGitExists = false) :
    getNestedGitRepository s.workspaceDir (.error err) = none ∧
    (initShadowGit s (.error err) env duration).result = .ok (true, duration) ∧
    (initShadowGit s (.error err) env duration).state.gitInitialized = true := by
  refine ⟨rfl, ?_, ?_⟩ <;>
    simp [initShadowGit, getNestedGitRepository, hinit, hnew]

/-- Witness for `initShadowGit_scan_failure_proceeds`: a throwing scan on a
fresh instance still yields a created repository. -/
theorem initShadowGit_scan_failure_proceeds_witness :
    getNestedGitRepository "/w" (.error "ripgrep missing") = none ∧
    (initShadowGit
      { taskId := "t", checkpointsDir := "/s", workspaceDir := "/w",
        checkpoints := [], baseHash := none, gitInitialized := false }
      (.error "ripgrep missing") ⟨false, none, "h", "n"⟩ 3).result
      = .ok (true, 3) ∧
    (initShadowGit
      { taskId := "t", checkpointsDir := "/s", workspaceDir := "/w",
        checkpoints := [], baseHash := none, gitInitialized := false }
      (.error "ripgrep missing") ⟨false, none, "h", "n"⟩ 3).state.gitInitialized
      = true :=
  initShadowGit_scan_failure_proceeds
    { taskId := "t", checkpointsDir := "/s", workspaceDir := "/w",
      checkpoints := [], baseHash := none, gitInitialized := false }
    "ripgrep missing" ⟨false, none, "h", "n"⟩ 3 rfl rfl

end Checkpoints
